import Mathlib

/-!
# Verification of the OmniTrade AI Core orchestration layer

A shallow embedding, in Lean 4, of the fault-isolated periodic scheduler,
the decision broadcast stream, the administrative scale endpoint and the
pure signal computations of the repository (`main.py`,
`strategies/funding_arb.py`, `core/market/options_sentiment.py`).

Python floats are modelled as rationals (`ℚ`); Python dictionaries whose
keys may be absent are modelled as structures with `Option` fields;
exceptions are modelled with `Except`/`Option` or explicit outcome types.
-/

namespace OmniTrade

/-! ## `strategies/funding_arb.py` — `FundingArbScanner`

`fetch_funding_rates()` returns a mapping from symbol to funding data; the
`fundingRate` entry may be absent (`None` in Python).  The whole body of
`scan_opportunities` sits inside one `try`, so any exception yields `[]`. -/

/-- One entry of the mapping returned by `exchange.fetch_funding_rates()`:
`data.get('fundingRate')` may yield `None`. -/
structure FundingData where
  fundingRate : Option ℚ
deriving DecidableEq, Repr

/-- `self.min_funding_rate_threshold = 0.001` (0.1% per 8h). -/
def min_funding_rate_threshold : ℚ := 1/1000

/-- The opportunity record built for a passing symbol. -/
structure Opportunity where
  symbol : String
  funding_rate_8h : ℚ
  annualized_apr : ℚ
  strategy : String
  action : String
deriving DecidableEq, Repr

/-- The dict appended for a symbol whose rate passes the threshold:
`annualized_apr = rate * 3 * 365 * 100` (approx 3 payments a day). -/
def mkOpportunity (symbol : String) (rate : ℚ) : Opportunity where
  symbol := symbol
  funding_rate_8h := rate * 100
  annualized_apr := rate * 3 * 365 * 100
  strategy := "DELTA_NEUTRAL_CARRY"
  action := "BUY SPOT " ++ symbol ++ " + SHORT PERP " ++ symbol

/-- The `for symbol, data in funding_rates.items()` loop: keep a symbol when
`rate and rate > self.min_funding_rate_threshold` (Python truthiness:
`rate` must be present and non-zero). -/
def collectOpportunities : List (String × FundingData) → List Opportunity
  | [] => []
  | (symbol, data) :: rest =>
    match data.fundingRate with
    | none => collectOpportunities rest
    | some rate =>
      if rate ≠ 0 ∧ rate > min_funding_rate_threshold then
        mkOpportunity symbol rate :: collectOpportunities rest
      else
        collectOpportunities rest

/-- Stable descending insertion for
`opportunities.sort(key=lambda x: x['annualized_apr'], reverse=True)`:
an element is placed before the first strictly-smaller key, keeping
earlier elements first among equal keys. -/
def insertByAprDesc (x : Opportunity) : List Opportunity → List Opportunity
  | [] => [x]
  | y :: ys =>
    if y.annualized_apr ≤ x.annualized_apr then x :: y :: ys
    else y :: insertByAprDesc x ys

/-- Stable descending sort by `annualized_apr` (Python `list.sort` with
`reverse=True`). -/
def sortByAprDesc : List Opportunity → List Opportunity
  | [] => []
  | x :: xs => insertByAprDesc x (sortByAprDesc xs)

/-- `FundingArbScanner.scan_opportunities`.  The argument stands for the
outcome of `self.exchange.fetch_funding_rates()` (and the rest of the
`try` body): `Except.error` models any raised exception, in which case the
`except` clause logs and returns `[]`.  Otherwise the passing symbols are
collected, sorted by highest APR and the top 5 returned. -/
def scan_opportunities (fetch : Except String (List (String × FundingData))) :
    List Opportunity :=
  match fetch with
  | .error _ => []
  | .ok funding_rates => (sortByAprDesc (collectOpportunities funding_rates)).take 5


/-! ## `core/market/options_sentiment.py` — `OptionsSentiment`

`calculate_sentiment(data, currency)` receives the instrument list from
Deribit.  Each instrument dict is accessed with
`instrument.get('open_interest', 0)`, `instrument['instrument_name']`
(mandatory key), `instrument.get('mark_iv', 0)`. -/

/-- One instrument dict of the Deribit book summary. -/
structure Instrument where
  instrument_name : String
  open_interest : Option ℚ
  mark_iv : Option ℚ
deriving DecidableEq, Repr

/-- Python returns either the bare string `"NO_DATA"` or a
`{currency, pc_ratio, implied_volatility, sentiment}` dict. -/
inductive SentimentResult where
  | str (s : String)
  | record (currency : String) (pc_ratio : ℚ) (implied_volatility : ℚ)
      (sentiment : String)
deriving DecidableEq, Repr

/-- Code-point comparison of character lists (structurally recursive, so
that concrete instances evaluate). -/
def charListBeq : List Char → List Char → Bool
  | [], [] => true
  | c :: cs, d :: ds => c.toNat == d.toNat && charListBeq cs ds
  | _, _ => false

/-- Python `s.endswith(post)`: the last `len(post)` characters of `s`
equal `post`. -/
def pyEndsWith (s post : String) : Bool :=
  charListBeq (s.data.drop (s.data.length - post.data.length)) post.data

/-- One pass of the `for instrument in data` loop.  The accumulator is
`(total_put_oi, total_call_oi, iv_sum, count)`; the `if is_put / elif
is_call` chain adds the open interest to at most one total, and `mark_iv`
is summed only when strictly positive. -/
def sentimentAccum (acc : ℚ × ℚ × ℚ × ℕ) (instrument : Instrument) :
    ℚ × ℚ × ℚ × ℕ :=
  let oi := instrument.open_interest.getD 0
  let is_put := pyEndsWith instrument.instrument_name "P"
  let is_call := pyEndsWith instrument.instrument_name "C"
  let put_oi := if is_put then acc.1 + oi else acc.1
  let call_oi := if ¬ is_put ∧ is_call then acc.2.1 + oi else acc.2.1
  let iv := instrument.mark_iv.getD 0
  if iv > 0 then (put_oi, call_oi, acc.2.2.1 + iv, acc.2.2.2 + 1)
  else (put_oi, call_oi, acc.2.2.1, acc.2.2.2)

/-- The totals after the instrument loop. -/
def sentimentTotals (data : List Instrument) : ℚ × ℚ × ℚ × ℕ :=
  data.foldl sentimentAccum (0, 0, 0, 0)

/-- `total_call_oi` as accumulated by the loop. -/
def total_call_oi (data : List Instrument) : ℚ := (sentimentTotals data).2.1

/-- `total_put_oi` as accumulated by the loop. -/
def total_put_oi (data : List Instrument) : ℚ := (sentimentTotals data).1

/-- `OptionsSentiment.calculate_sentiment`: `if not data: return "NO_DATA"`;
otherwise `avg_iv` is the guarded average, `pc_ratio` is
`total_put_oi / total_call_oi if total_call_oi > 0 else 1.0`, and the
sentiment string follows the `> 1.0` / `< 0.6` threshold chain. -/
def calculate_sentiment (data : List Instrument) (currency : String) :
    SentimentResult :=
  if data = [] then .str "NO_DATA"
  else
    let t := sentimentTotals data
    let avg_iv := if t.2.2.2 > 0 then t.2.2.1 / (t.2.2.2 : ℚ) else 0
    let pc_ratio := if t.2.1 > 0 then t.1 / t.2.1 else 1
    let sentiment :=
      if pc_ratio > 1 then "BEARISH (High Fear)"
      else if pc_ratio < 3/5 then "BULLISH (Extreme Greed)"
      else "NEUTRAL"
    .record currency pc_ratio avg_iv sentiment

/-- `OptionsSentiment.__init__`: the object state is immutable
configuration. -/
structure OptionsSentimentState where
  base_url : String
  currencies : List String
deriving DecidableEq, Repr

/-- The object constructed at module import time in `main.py`. -/
def optionsSentimentInit : OptionsSentimentState where
  base_url := "https://www.deribit.com/api/v2/public"
  currencies := ["BTC", "ETH"]

/-- `OptionsSentiment.run_cycle`: iterates the configured currencies,
fetches each book (`books` stands for the fetched data) and computes the
sentiment; it mutates nothing on `self`, so the returned state is the
input state. -/
def optionsSentiment_run_cycle (s : OptionsSentimentState)
    (books : String → List Instrument) :
    OptionsSentimentState × List (String × SentimentResult) :=
  (s, s.currencies.map (fun c => (c, calculate_sentiment (books c) c)))

/-! ## `main.py` — background monitor loops

Every background task follows the same pattern:

```
while True:
    try:
        <cycle>
    except Exception as e:
        logger.error(f"<Label> failed: {e}")
    await asyncio.sleep(<cadence>)
```

A cycle's behaviour is abstracted as a `CycleOutcome` (it returns, or it
raises with a message); its wall-clock cost as a duration.  Time is `ℚ`
(seconds). -/

/-- What one invocation of the cycle body does: return normally, or raise
an exception carrying a message. -/
inductive CycleOutcome where
  | ok
  | exc (msg : String)
deriving DecidableEq, Repr

/-- The `logger.error` line of one iteration: a failing cycle logs the
monitor's label and the cause; a successful one logs nothing at the loop
boundary. -/
def cycleLog (label : String) (o : CycleOutcome) : List String :=
  match o with
  | .ok => []
  | .exc msg => [label ++ " failed: " ++ msg]

/-- The log produced by the first `n` iterations of a monitor loop whose
cycle outcomes are `outcomes`.  The loop is `while True`: every iteration
appends its (possibly empty) log entry and continues, whatever the
outcome. -/
def monitorLog (label : String) (outcomes : ℕ → CycleOutcome) : ℕ → List String
  | 0 => []
  | n + 1 => monitorLog label outcomes n ++ cycleLog label (outcomes n)

/-- Start time of the `n`-th cycle.  The loop body runs the cycle first and
then `await asyncio.sleep(cadence)`, so cycle `n+1` starts when cycle `n`
ends (`dur n` later) plus the cadence wait. -/
def cycleStart (cadence t0 : ℚ) (dur : ℕ → ℚ) : ℕ → ℚ
  | 0 => t0
  | n + 1 => cycleStart cadence t0 dur n + dur n + cadence

/-- The background tasks spawned by `startup_event`, with the `sleep`
cadence (seconds) hard-coded in each loop in `main.py`. -/
def backgroundMonitors : List (String × ℚ) :=
  [("run_macro_analysis", 3600),
   ("run_evolution_cycle", 86400),
   ("run_governance_watch", 3600),
   ("run_liquidity_monitor", 60),
   ("run_global_book_analysis", 10),
   ("run_trends_analysis", 3600),
   ("run_stablecoin_watch", 60),
   ("run_github_tracking", 86400),
   ("run_exchange_flow_monitor", 15),
   ("run_defillama_tracker", 86400),
   ("run_options_sentiment", 3600),
   ("run_funding_arb_scan", 14400),
   ("run_gas_watcher", 30),
   ("run_correlation_engine", 86400)]

/-- The full observable trace of one monitor loop after `n` iterations:
what it logged and when its next cycle starts. -/
def monitorTrace (label : String) (cadence t0 : ℚ)
    (outcomes : ℕ → CycleOutcome) (dur : ℕ → ℚ) (n : ℕ) : List String × ℚ :=
  (monitorLog label outcomes n, cycleStart cadence t0 dur n)

/-- Two monitor loops run as independent `asyncio` tasks: the combined
system trace is the pair of the two standalone traces, each a function of
its own inputs only (the loops share no state in `main.py`). -/
def twoMonitorSystem (labelA labelB : String) (cadA cadB t0A t0B : ℚ)
    (outA outB : ℕ → CycleOutcome) (durA durB : ℕ → ℚ) (n : ℕ) :
    (List String × ℚ) × (List String × ℚ) :=
  (monitorTrace labelA cadA t0A outA durA n,
   monitorTrace labelB cadB t0B outB durB n)

/-- The state carried across iterations of `run_options_sentiment`: the
`OptionsSentiment` object.  A successful iteration runs
`options_sentiment.run_cycle()` (which returns the results and leaves the
object unchanged); a raising iteration is caught by the `except` clause,
which only logs — neither path updates any counter. -/
def run_options_sentiment_step (s : OptionsSentimentState)
    (books : String → List Instrument) (o : CycleOutcome) :
    OptionsSentimentState :=
  match o with
  | .ok => (optionsSentiment_run_cycle s books).1
  | .exc _ => s

/-! ## `main.py` — `scale_scraper` (POST `/api/system/scale-scraper`) -/

/-- The value returned by `subprocess.run(cmd, capture_output=True,
text=True)`. -/
structure ProcResult where
  returncode : Int
  stdout : String
  stderr : String
deriving DecidableEq, Repr

/-- What the endpoint hands back to FastAPI: a JSON body, or an
`HTTPException` with a status code and a detail string. -/
inductive ScaleResponse where
  | success (replicas : Int)
  | httpError (status : ℕ) (detail : String)
deriving DecidableEq, Repr

/-- Starlette renders an `HTTPException` as `f"{status_code}: {detail}"`;
this is the `str(e)` the outer `except` clause embeds in its own 500. -/
def strOfHTTPException (status : ℕ) (detail : String) : String :=
  toString status ++ ": " ++ detail

/-- `scale_scraper(request)`.  `runCmd` stands for the outcome of
`subprocess.run` on the docker-compose scale command: `.error msg` models
`subprocess.run` itself raising (with `str` of the exception `msg`),
`.ok r` its completed result.  The second component counts how many times
the process-manager command was issued.

The `replicas < 4` rejection happens before the `try`, so no command is
issued.  Inside the `try`, a non-zero `returncode` raises
`HTTPException(500, f"Scaling failed: {result.stderr}")`, which — being an
`Exception` — is caught by the function's own `except Exception` clause
and re-raised as `HTTPException(500, str(e))`. -/
def scale_scraper (replicas : Int) (runCmd : Except String ProcResult) :
    ScaleResponse × ℕ :=
  if replicas < 4 then
    (.httpError 400 "Minimum scraper count is 4.", 0)
  else
    match runCmd with
    | .error msg => (.httpError 500 msg, 1)
    | .ok result =>
      if result.returncode ≠ 0 then
        (.httpError 500
          (strOfHTTPException 500 ("Scaling failed: " ++ result.stderr)), 1)
      else
        (.success replicas, 1)

/-! ## `main.py` — `websocket_endpoint` (the decision stream)

One `websocket_endpoint` task runs per connected client.  Each iteration
builds the fixed `market_data`, awaits
`swarm_manager.get_swarm_decision(market_data)`, builds the payload dict
(key lookups may raise `KeyError`), sends it, and sleeps 1 second.
`WebSocketDisconnect` and any other exception are caught outside the
`while True`, so the first failure ends that client's loop. -/

/-- The `market_data` dict built each tick. -/
structure MarketState where
  orderbook_features : List ℚ
  ohlcv_features : List ℚ
  portfolio_value : ℚ
  positions : List String
deriving DecidableEq, Repr

/-- The literal `market_data` value in `websocket_endpoint`. -/
def market_data : MarketState where
  orderbook_features := List.replicate 10 (1/2)
  ohlcv_features := List.replicate 10 (1/2)
  portfolio_value := 10000
  positions := []

/-- The decision dict returned by `get_swarm_decision`: each key the
payload reads may be absent (a `KeyError` on access). -/
structure RawDecision where
  action : Option String
  confidence : Option ℚ
  active_agents : Option ℕ
  agent_decisions : Option (List (String × String))
deriving DecidableEq, Repr

/-- The payload dict sent over the websocket. -/
structure Payload where
  pnl : ℚ
  active_agents : ℕ
  signals_action : String
  signals_confidence : ℚ
  signals_agent_decisions : List (String × String)
  timestamp : String
deriving DecidableEq, Repr

/-- Building the payload dict: `pnl` is the literal `0.0`, the other
fields are the four key lookups on the decision (any missing key raises
`KeyError`, modelled as `none`), and `timestamp` is the string literal
`"2025-11-30T00:00:00Z"` in the source. -/
def buildPayload (decision : RawDecision) : Option Payload :=
  match decision.active_agents, decision.action, decision.confidence,
      decision.agent_decisions with
  | some aa, some act, some conf, some ad =>
    some ⟨0, aa, act, conf, ad, "2025-11-30T00:00:00Z"⟩
  | _, _, _, _ => none

/-- What one tick of a client's loop does. -/
inductive WsEvent where
  | delivered (p : Payload)
  | disconnectEnd
  | errorClosed
deriving DecidableEq, Repr

/-- Tick `t` of one client's loop, given the aggregator `agg` (queried on
the fixed `market_data`) and the tick `disconnectAt` at which this client
disconnects (if ever).  The payload is built first (a malformed decision
raises `KeyError`, caught by the generic handler which logs and closes the
socket); then the send either succeeds or raises `WebSocketDisconnect`. -/
def websocket_step (agg : MarketState → ℕ → RawDecision)
    (disconnectAt : Option ℕ) (t : ℕ) : WsEvent :=
  match buildPayload (agg market_data t) with
  | none => .errorClosed
  | some p =>
    match disconnectAt with
    | some k => if k ≤ t then .disconnectEnd else .delivered p
    | none => .delivered p

/-- Whether a tick delivered a payload. -/
def isDelivered : WsEvent → Bool
  | .delivered _ => true
  | _ => false

/-- The client's loop is still running when tick `t` begins: every earlier
tick must have delivered (the first disconnect or error ends the loop). -/
def wsAlive (agg : MarketState → ℕ → RawDecision) (disconnectAt : Option ℕ) :
    ℕ → Bool
  | 0 => true
  | t + 1 => wsAlive agg disconnectAt t && isDelivered (websocket_step agg disconnectAt t)

/-- The snapshot this client receives at tick `t`, if any. -/
def wsSendsAt (agg : MarketState → ℕ → RawDecision) (disconnectAt : Option ℕ)
    (t : ℕ) : Option Payload :=
  if wsAlive agg disconnectAt t then
    match websocket_step agg disconnectAt t with
    | .delivered p => some p
    | _ => none
  else none

/-- How many snapshots this client received during the first `n` ticks. -/
def snapshotsReceived (agg : MarketState → ℕ → RawDecision)
    (disconnectAt : Option ℕ) (n : ℕ) : ℕ :=
  ((List.range n).filterMap (wsSendsAt agg disconnectAt)).length

/-- Two clients are two independent `websocket_endpoint` tasks sharing only
the aggregator: the system's deliveries at tick `t` are the pair of the
standalone deliveries. -/
def twoClientSendsAt (agg : MarketState → ℕ → RawDecision)
    (dA dB : Option ℕ) (t : ℕ) : Option Payload × Option Payload :=
  (wsSendsAt agg dA t, wsSendsAt agg dB t)

/-- Modelled from the spec: "wraps the result with a generated timestamp"
— the payload the spec describes carries a timestamp generated at the
tick (`now`) instead of whatever the code puts there. -/
def specGeneratedPayload (now : String) (decision : RawDecision) :
    Option Payload :=
  (buildPayload decision).map (fun p => { p with timestamp := now })

/-- An aggregator that violates its contract exactly once: the decision at
tick 0 misses the `action` key, every later decision is well-formed. -/
def aggMalformedOnce : MarketState → ℕ → RawDecision := fun _ t =>
  if t = 0 then RawDecision.mk none (some 1) (some 5) (some [])
  else RawDecision.mk (some "hold") (some 1) (some 5) (some [])

/-! ## `main.py` — lifecycle (`startup_event` / `shutdown_event`)

`startup_event` spawns one `asyncio.create_task` per background loop and
starts the DataNexus listener.  `shutdown_event` logs "Shutting down..."
and awaits `data_nexus.stop()` — nothing else: no background task is
cancelled or signalled, and the per-connection websocket loops are not
touched. -/

/-- The lifecycle-relevant state of the process. -/
structure SystemState where
  dataNexusRunning : Bool
  monitorRunning : String → Bool
  openConnections : ℕ
  log : List String

/-- The flags `shutdown` could change (the log excluded). -/
def lifecycleOf (s : SystemState) : Bool × (String → Bool) × ℕ :=
  (s.dataNexusRunning, s.monitorRunning, s.openConnections)

/-- Before the FastAPI startup hook fires: nothing runs. -/
def initialState : SystemState where
  dataNexusRunning := false
  monitorRunning := fun _ => false
  openConnections := 0
  log := []

/-- `startup_event`: starts the DataNexus listener and creates one task per
background loop listed in `main.py`. -/
def startup_event (s : SystemState) : SystemState where
  dataNexusRunning := true
  monitorRunning := fun n =>
    if (backgroundMonitors.map Prod.fst).contains n then true
    else s.monitorRunning n
  openConnections := s.openConnections
  log := s.log ++ ["Starting OmniTrade AI Core (Singularity Level - Phase 2)..."]

/-- `shutdown_event`: logs and awaits `data_nexus.stop()`.  The `stop`
bodies of the nexus sub-feeds are not part of the core source; modelled
from the spec ("`shutdown()` ... must be idempotent"), stopping the
listener only clears its running flag.  No monitor task and no websocket
connection is signalled, stopped or cancelled. -/
def shutdown_event (s : SystemState) : SystemState where
  dataNexusRunning := false
  monitorRunning := s.monitorRunning
  openConnections := s.openConnections
  log := s.log ++ ["Shutting down...", "Stopping Data Nexus..."]

/-- Letting `grace` seconds pass changes no lifecycle flag: the monitor
loops are `while True` with no stop checkpoint, so the passage of time
alone never moves one out of its running state. -/
def afterGrace (s : SystemState) (_grace : ℚ) : SystemState := s

/-! ## Claim theorems -/

/-! Sorting facts used for C9. -/

theorem mem_insertByAprDesc {x a : Opportunity} {l : List Opportunity} :
    a ∈ insertByAprDesc x l ↔ a = x ∨ a ∈ l := by
  induction l with
  | nil => simp [insertByAprDesc]
  | cons y ys ih =>
    by_cases h : y.annualized_apr ≤ x.annualized_apr
    · simp [insertByAprDesc, h]
    · simp [insertByAprDesc, h, ih]
      tauto

theorem pairwise_insertByAprDesc {x : Opportunity} {l : List Opportunity}
    (hl : l.Pairwise (fun a b => b.annualized_apr ≤ a.annualized_apr)) :
    (insertByAprDesc x l).Pairwise (fun a b => b.annualized_apr ≤ a.annualized_apr) := by
  induction l with
  | nil => simp [insertByAprDesc]
  | cons y ys ih =>
    rcases List.pairwise_cons.mp hl with ⟨hy, hys⟩
    by_cases h : y.annualized_apr ≤ x.annualized_apr
    · simp only [insertByAprDesc, if_pos h]
      refine List.pairwise_cons.mpr ⟨?_, hl⟩
      intro b hb
      rcases List.mem_cons.mp hb with rfl | hb
      · exact h
      · exact le_trans (hy b hb) h
    · simp only [insertByAprDesc, if_neg h]
      refine List.pairwise_cons.mpr ⟨?_, ih hys⟩
      intro b hb
      rcases mem_insertByAprDesc.mp hb with rfl | hb
      · exact le_of_not_le h
      · exact hy b hb

theorem pairwise_sortByAprDesc (l : List Opportunity) :
    (sortByAprDesc l).Pairwise (fun a b => b.annualized_apr ≤ a.annualized_apr) := by
  induction l with
  | nil => exact List.Pairwise.nil
  | cons x xs ih => exact pairwise_insertByAprDesc ih

theorem mem_sortByAprDesc {a : Opportunity} {l : List Opportunity} :
    a ∈ sortByAprDesc l ↔ a ∈ l := by
  induction l with
  | nil => simp [sortByAprDesc]
  | cons x xs ih => simp [sortByAprDesc, mem_insertByAprDesc, ih]

theorem mem_collectOpportunities {a : Opportunity}
    {l : List (String × FundingData)} (ha : a ∈ collectOpportunities l) :
    ∃ symbol rate, (symbol, FundingData.mk (some rate)) ∈ l ∧
      rate > min_funding_rate_threshold ∧ a = mkOpportunity symbol rate := by
  induction l with
  | nil => simp [collectOpportunities] at ha
  | cons p rest ih =>
    obtain ⟨symbol, data⟩ := p
    match hdata : data.fundingRate with
    | none =>
      simp only [collectOpportunities, hdata] at ha
      obtain ⟨s, r, hmem, hr, he⟩ := ih ha
      exact ⟨s, r, List.mem_cons_of_mem _ hmem, hr, he⟩
    | some rate =>
      simp only [collectOpportunities, hdata] at ha
      by_cases hcond : rate ≠ 0 ∧ rate > min_funding_rate_threshold
      · rw [if_pos hcond] at ha
        rcases List.mem_cons.mp ha with rfl | ha
        · refine ⟨symbol, rate, ?_, hcond.2, rfl⟩
          have hd : data = FundingData.mk (some rate) := by
            cases data
            simpa using hdata
          rw [hd]
          exact List.mem_cons_self _ _
        · obtain ⟨s, r, hmem, hr, he⟩ := ih ha
          exact ⟨s, r, List.mem_cons_of_mem _ hmem, hr, he⟩
      · rw [if_neg hcond] at ha
        obtain ⟨s, r, hmem, hr, he⟩ := ih ha
        exact ⟨s, r, List.mem_cons_of_mem _ hmem, hr, he⟩

/-- C9: `FundingArbScanner.scan_opportunities` returns at most 5
opportunities; every returned opportunity originates from an entry whose
funding rate is strictly greater than the `0.001` threshold, with
`annualized_apr = rate * 3 * 365 * 100` and `funding_rate_8h = rate * 100`;
the list is sorted in descending order of `annualized_apr`; and if
fetching the funding rates raises any exception, the empty list is
returned. -/
theorem C9_scan_opportunities_spec
    (fetch : Except String (List (String × FundingData))) :
    (scan_opportunities fetch).length ≤ 5
    ∧ (scan_opportunities fetch).Pairwise
        (fun a b => b.annualized_apr ≤ a.annualized_apr)
    ∧ (∀ l, fetch = .ok l → ∀ a ∈ scan_opportunities fetch,
        ∃ symbol rate, (symbol, FundingData.mk (some rate)) ∈ l
          ∧ rate > min_funding_rate_threshold
          ∧ a = mkOpportunity symbol rate
          ∧ a.funding_rate_8h = rate * 100
          ∧ a.annualized_apr = rate * 3 * 365 * 100)
    ∧ (∀ msg, scan_opportunities (.error msg) = []) := by
  refine ⟨?_, ?_, ?_, fun msg => rfl⟩
  · cases fetch with
    | error msg => simp [scan_opportunities]
    | ok l =>
      simp only [scan_opportunities]
      exact List.length_take_le 5 _
  · cases fetch with
    | error msg => simp [scan_opportunities]
    | ok l =>
      simp only [scan_opportunities]
      exact (pairwise_sortByAprDesc (collectOpportunities l)).sublist
        (List.take_sublist 5 _)
  · rintro l rfl a ha
    simp only [scan_opportunities] at ha
    have ha' := mem_sortByAprDesc.mp (List.mem_of_mem_take ha)
    obtain ⟨symbol, rate, hmem, hrate, he⟩ := mem_collectOpportunities ha'
    exact ⟨symbol, rate, hmem, hrate, he, by rw [he]; rfl, by rw [he]; rfl⟩

/-- C9 witness: on a concrete two-symbol fetch, the returned top
opportunity is traced back to its entry and its APR formula. -/
theorem C9_scan_opportunities_spec_witness :
    ∃ symbol rate,
      (symbol, FundingData.mk (some rate)) ∈
        [("BTC/USDT:USDT", FundingData.mk (some (1/500))),
         ("ETH/USDT:USDT", FundingData.mk (some (1/200)))]
      ∧ rate > min_funding_rate_threshold
      ∧ mkOpportunity "ETH/USDT:USDT" (1/200) = mkOpportunity symbol rate
      ∧ (mkOpportunity "ETH/USDT:USDT" (1/200)).funding_rate_8h = rate * 100
      ∧ (mkOpportunity "ETH/USDT:USDT" (1/200)).annualized_apr =
          rate * 3 * 365 * 100 := by
  have hscan : scan_opportunities
      (.ok [("BTC/USDT:USDT", FundingData.mk (some (1/500))),
            ("ETH/USDT:USDT", FundingData.mk (some (1/200)))]) =
      [mkOpportunity "ETH/USDT:USDT" (1/200),
       mkOpportunity "BTC/USDT:USDT" (1/500)] := by
    norm_num [scan_opportunities, collectOpportunities, sortByAprDesc,
      insertByAprDesc, mkOpportunity, min_funding_rate_threshold]
  exact (C9_scan_opportunities_spec
      (.ok [("BTC/USDT:USDT", FundingData.mk (some (1/500))),
            ("ETH/USDT:USDT", FundingData.mk (some (1/200)))])).2.2.1
    _ rfl _ (hscan ▸ List.mem_cons_self _ _)

/-- C10: `OptionsSentiment.calculate_sentiment` never divides by zero:
with zero total call open interest the put/call ratio is defined to be 1,
which yields sentiment `NEUTRAL` (the bearish branch needs a ratio
strictly above 1); an empty instrument list yields the bare string
`"NO_DATA"`; every non-empty list yields the
`{currency, pc_ratio, implied_volatility, sentiment}` record. -/
theorem C10_sentiment_guards (data : List Instrument) (currency : String) :
    calculate_sentiment [] currency = .str "NO_DATA"
    ∧ (data ≠ [] → total_call_oi data = 0 →
        ∃ iv, calculate_sentiment data currency = .record currency 1 iv "NEUTRAL")
    ∧ (data ≠ [] →
        ∃ pc iv s, calculate_sentiment data currency = .record currency pc iv s) := by
  refine ⟨rfl, ?_, ?_⟩
  · intro hne hcall
    unfold total_call_oi at hcall
    refine ⟨if (sentimentTotals data).2.2.2 > 0 then
      (sentimentTotals data).2.2.1 / ((sentimentTotals data).2.2.2 : ℚ) else 0, ?_⟩
    simp only [calculate_sentiment, if_neg hne, hcall]
    norm_num
  · intro hne
    simp only [calculate_sentiment, if_neg hne]
    exact ⟨_, _, _, rfl⟩

/-- C10 witness: a concrete put-only book has zero call open interest and
comes out `NEUTRAL` with ratio 1. -/
theorem C10_sentiment_guards_witness :
    total_call_oi [Instrument.mk "BTC-26DEC25-50000-P" (some 5) (some 10)] = 0
    ∧ ∃ iv, calculate_sentiment
        [Instrument.mk "BTC-26DEC25-50000-P" (some 5) (some 10)] "BTC" =
        .record "BTC" 1 iv "NEUTRAL" := by
  have hput : pyEndsWith "BTC-26DEC25-50000-P" "P" = true := by decide
  have hcall : pyEndsWith "BTC-26DEC25-50000-P" "C" = false := by decide
  have hoi : total_call_oi
      [Instrument.mk "BTC-26DEC25-50000-P" (some 5) (some 10)] = 0 := by
    norm_num [total_call_oi, sentimentTotals, List.foldl, sentimentAccum,
      hput, hcall]
  exact ⟨hoi,
    (C10_sentiment_guards
      [Instrument.mk "BTC-26DEC25-50000-P" (some 5) (some 10)] "BTC").2.1
      (by simp) hoi⟩

theorem monitorLog_all_exc (label : String) (msgs : ℕ → String)
    (out : ℕ → CycleOutcome) (h : ∀ i, out i = .exc (msgs i)) (n : ℕ) :
    monitorLog label out n =
      (List.range n).map (fun i => label ++ " failed: " ++ msgs i) := by
  induction n with
  | zero => rfl
  | succ k ih =>
    rw [monitorLog, ih, List.range_succ, List.map_append, h k]
    rfl

/-- C1: an exception raised by a monitor's cycle is caught at that loop's
boundary and logged with the monitor's identity and cause; the loop then
proceeds to its next cadence wait, so a monitor whose cycle throws on
every invocation has, after 5 cadences, logged exactly 5 isolated
failures; and a sibling monitor loop's entire trace (log and schedule) is
unchanged whatever the failing monitor's cycles do. -/
theorem C1_monitor_failure_isolation
    (msgs : ℕ → String) (outA : ℕ → CycleOutcome)
    (hA : ∀ i, outA i = .exc (msgs i))
    (cadA cadB t0A t0B : ℚ) (durA durB : ℕ → ℚ) (outB : ℕ → CycleOutcome) :
    monitorLog "Options Sentiment" outA 5 =
      (List.range 5).map (fun i => "Options Sentiment failed: " ++ msgs i)
    ∧ (∀ n, cycleStart cadA t0A durA (n + 1) =
        cycleStart cadA t0A durA n + durA n + cadA)
    ∧ (∀ outA' durA' n,
        (twoMonitorSystem "Options Sentiment" "Gas Watcher" cadA cadB t0A t0B
          outA outB durA durB n).2 =
        (twoMonitorSystem "Options Sentiment" "Gas Watcher" cadA cadB t0A t0B
          outA' outB durA' durB n).2) :=
  ⟨monitorLog_all_exc _ msgs outA hA 5, fun _ => rfl, fun _ _ _ => rfl⟩

/-- C1 witness: a concrete always-throwing monitor logs 5 identical
failures in 5 cadences while a sibling's trace is untouched. -/
theorem C1_monitor_failure_isolation_witness :
    monitorLog "Options Sentiment" (fun _ => .exc "boom") 5 =
      ["Options Sentiment failed: boom", "Options Sentiment failed: boom",
       "Options Sentiment failed: boom", "Options Sentiment failed: boom",
       "Options Sentiment failed: boom"]
    ∧ (twoMonitorSystem "Options Sentiment" "Gas Watcher" 3600 30 0 0
        (fun _ => .exc "boom") (fun _ => .ok) (fun _ => 1) (fun _ => 1) 5).2 =
      (twoMonitorSystem "Options Sentiment" "Gas Watcher" 3600 30 0 0
        (fun _ => .ok) (fun _ => .ok) (fun _ => 2) (fun _ => 1) 5).2 := by
  have h := C1_monitor_failure_isolation (fun _ => "boom")
    (fun _ => .exc "boom") (fun _ => rfl) 3600 30 0 0 (fun _ => 1) (fun _ => 1)
    (fun _ => .ok)
  exact ⟨by rw [h.1]; rfl, h.2.2 (fun _ => .ok) (fun _ => 2) 5⟩

/-- C2: for every monitor loop registered in `main.py` with cadence `c`,
the gap between the starts of two consecutive cycles equals `c` plus the
duration of the prior cycle, hence is at least `c` (the cadence wait runs
after the cycle completes), and every cadence is positive. -/
theorem C2_cadence_gap (m : String × ℚ) (hm : m ∈ backgroundMonitors)
    (t0 : ℚ) (dur : ℕ → ℚ) (hd : ∀ i, 0 ≤ dur i) (n : ℕ) :
    cycleStart m.2 t0 dur (n + 1) - cycleStart m.2 t0 dur n = m.2 + dur n
    ∧ m.2 ≤ cycleStart m.2 t0 dur (n + 1) - cycleStart m.2 t0 dur n
    ∧ 0 < m.2 := by
  refine ⟨by simp [cycleStart]; ring, ?_, ?_⟩
  · have := hd n
    simp only [cycleStart]
    linarith
  · fin_cases hm <;> norm_num

/-- C2 witness: the gas watcher (cadence 30) with a 7-second cycle starts
its next cycle 37 seconds later, never sooner than 30. -/
theorem C2_cadence_gap_witness :
    cycleStart 30 0 (fun _ => 7) 3 - cycleStart 30 0 (fun _ => 7) 2 = 30 + 7
    ∧ (30 : ℚ) ≤ cycleStart 30 0 (fun _ => 7) 3 - cycleStart 30 0 (fun _ => 7) 2
    ∧ (0 : ℚ) < 30 := by
  have h := C2_cadence_gap ("run_gas_watcher", 30)
    (by simp [backgroundMonitors]) 0 (fun _ => 7) (fun i => by norm_num) 2
  exact h

/-- C8 counterexample: the monitor loops in `main.py` maintain no
`RunState` — the state carried across iterations of
`run_options_sentiment` is the `OptionsSentiment` object, which a caught
failure leaves unchanged, so no counter read from that state can grow by
one on every caught failure. -/
theorem C8_no_failure_counter :
    ¬ ∃ f : OptionsSentimentState → ℕ,
        ∀ s books msg,
          f (run_options_sentiment_step s books (.exc msg)) = f s + 1 := by
  rintro ⟨f, hf⟩
  have h := hf optionsSentimentInit (fun _ => []) "boom"
  simp only [run_options_sentiment_step] at h
  omega

/-- C8 amended: on every caught cycle failure the monitor loop logs the
monitor's identity and cause and proceeds to the next cadence wait, but it
maintains no RunState: the state carried across iterations is unchanged by
the failure and holds no `consecutive_failures` counter. -/
theorem C8_failure_logged_state_unchanged
    (s : OptionsSentimentState) (books : String → List Instrument)
    (msg : String) (out : ℕ → CycleOutcome) (n : ℕ) :
    run_options_sentiment_step s books (.exc msg) = s
    ∧ monitorLog "Options Sentiment" out (n + 1) =
        monitorLog "Options Sentiment" out n
          ++ cycleLog "Options Sentiment" (out n)
    ∧ cycleLog "Options Sentiment" (.exc msg) =
        ["Options Sentiment failed: " ++ msg] :=
  ⟨rfl, rfl, rfl⟩

/-- C3: a scale request with `replicas < 4` fails with HTTP 400 and the
minimum-count message and no process-manager command is issued; a request
with `replicas ≥ 4` whose command exits non-zero yields HTTP 500 whose
detail carries the command's stderr, and the command is issued exactly
once (not retried). -/
theorem C3_scale_scraper_errors (replicas : Int) (result : ProcResult) :
    (replicas < 4 → ∀ runCmd, scale_scraper replicas runCmd =
      (.httpError 400 "Minimum scraper count is 4.", 0))
    ∧ (4 ≤ replicas → result.returncode ≠ 0 →
        scale_scraper replicas (.ok result) =
          (.httpError 500
            (strOfHTTPException 500 ("Scaling failed: " ++ result.stderr)), 1)
        ∧ ∃ pre, strOfHTTPException 500 ("Scaling failed: " ++ result.stderr) =
            pre ++ result.stderr) := by
  constructor
  · intro hlt runCmd
    simp [scale_scraper, hlt]
  · intro hge hrc
    have hnlt : ¬ replicas < 4 := not_lt.mpr hge
    refine ⟨by simp [scale_scraper, hnlt, hrc], ?_⟩
    refine ⟨toString 500 ++ ": " ++ "Scaling failed: ", ?_⟩
    simp only [strOfHTTPException]
    exact (String.append_assoc _ _ _).symm

/-- C3 witness: `replicas = 2` is rejected with 400 and zero commands;
`replicas = 5` with a failing command yields a 500 carrying the stderr,
one command issued. -/
theorem C3_scale_scraper_errors_witness :
    scale_scraper 2 (.ok (ProcResult.mk 0 "" "")) =
      (.httpError 400 "Minimum scraper count is 4.", 0)
    ∧ scale_scraper 5 (.ok (ProcResult.mk 1 "" "no such service: scraper")) =
        (.httpError 500
          (strOfHTTPException 500
            ("Scaling failed: " ++ "no such service: scraper")), 1)
    ∧ ∃ pre, strOfHTTPException 500
        ("Scaling failed: " ++ "no such service: scraper") =
        pre ++ "no such service: scraper" := by
  have h2 := (C3_scale_scraper_errors 2 (ProcResult.mk 0 "" "")).1
    (by norm_num) (.ok (ProcResult.mk 0 "" ""))
  have h5 := (C3_scale_scraper_errors 5
    (ProcResult.mk 1 "" "no such service: scraper")).2
    (by norm_num) (by norm_num)
  exact ⟨h2, h5.1, h5.2⟩

theorem wsAlive_of_all_delivered (agg : MarketState → ℕ → RawDecision)
    (d : Option ℕ) (t : ℕ)
    (h : ∀ s, s < t → isDelivered (websocket_step agg d s) = true) :
    wsAlive agg d t = true := by
  induction t with
  | zero => rfl
  | succ v ih =>
    rw [wsAlive, ih (fun s hs => h s (Nat.lt_succ_of_lt hs)),
      h v (Nat.lt_succ_self v)]
    rfl

theorem wsAlive_false_after (agg : MarketState → ℕ → RawDecision)
    (d : Option ℕ) (t : ℕ)
    (h : isDelivered (websocket_step agg d t) = false) :
    ∀ u, t < u → wsAlive agg d u = false := by
  intro u hu
  induction u with
  | zero => omega
  | succ v ih =>
    rw [wsAlive]
    rcases Nat.lt_succ_iff_lt_or_eq.mp hu with h' | rfl
    · rw [ih h', Bool.false_and]
    · rw [h, Bool.and_false]

/-- C4 amended: on every tick the loop queries the aggregator on the fixed
market state and pushes exactly
`{pnl, active_agents, signals (action, confidence, agent_decisions),
timestamp}`, where `pnl` is the placeholder `0`, the agent fields come
from the decision, and `timestamp` is the fixed placeholder ISO-8601
string literal `"2025-11-30T00:00:00Z"` (not a timestamp generated at the
tick). -/
theorem C4_payload_shape (agg : MarketState → ℕ → RawDecision) (t : ℕ)
    (act : String) (conf : ℚ) (aa : ℕ) (ad : List (String × String))
    (h : agg market_data t =
      RawDecision.mk (some act) (some conf) (some aa) (some ad)) :
    websocket_step agg none t =
      .delivered (Payload.mk 0 aa act conf ad "2025-11-30T00:00:00Z") := by
  simp [websocket_step, h, buildPayload]

/-- C4 witness: a concrete well-formed decision is pushed with the exact
shape and the constant timestamp. -/
theorem C4_payload_shape_witness :
    websocket_step (fun _ _ => RawDecision.mk (some "hold") (some 1) (some 3)
      (some [])) none 0 =
      .delivered (Payload.mk 0 3 "hold" 1 [] "2025-11-30T00:00:00Z") :=
  C4_payload_shape _ 0 "hold" 1 3 [] rfl

/-- C4 counterexample: the pushed timestamp is the constant string literal
of the source, not a timestamp generated at the tick — the code's payload
differs from the spec-modelled generated-timestamp payload whenever the
generation time is not the hard-coded instant. -/
theorem C4_timestamp_not_generated :
    (buildPayload (RawDecision.mk (some "hold") (some 1) (some 5)
        (some []))).map Payload.timestamp = some "2025-11-30T00:00:00Z"
    ∧ (specGeneratedPayload "2026-10-12T12:00:00Z"
        (RawDecision.mk (some "hold") (some 1) (some 5)
          (some []))).map Payload.timestamp = some "2026-10-12T12:00:00Z"
    ∧ buildPayload (RawDecision.mk (some "hold") (some 1) (some 5) (some []))
      ≠ specGeneratedPayload "2026-10-12T12:00:00Z"
        (RawDecision.mk (some "hold") (some 1) (some 5) (some [])) := by
  refine ⟨rfl, rfl, ?_⟩
  simp [buildPayload, specGeneratedPayload]

/-- C5: a delivery failure (disconnect) of one subscriber ends only that
subscriber's deliveries: with well-formed decisions, a never-disconnecting
subscriber receives exactly one snapshot per tick; a subscriber
disconnecting at tick `k` receives each earlier snapshot and nothing from
`k` on; and the second client's deliveries are independent of the first
client's disconnect. -/
theorem C5_subscriber_isolation (agg : MarketState → ℕ → RawDecision)
    (pl : ℕ → Payload)
    (h : ∀ t, buildPayload (agg market_data t) = some (pl t)) (k : ℕ) :
    (∀ t, wsSendsAt agg none t = some (pl t))
    ∧ (∀ n, snapshotsReceived agg none n = n)
    ∧ (∀ t, t < k → wsSendsAt agg (some k) t = some (pl t))
    ∧ (∀ t, k ≤ t → wsSendsAt agg (some k) t = none)
    ∧ (∀ dA dA' t, (twoClientSendsAt agg dA none t).2 =
        (twoClientSendsAt agg dA' none t).2) := by
  have hstep : ∀ t, websocket_step agg none t = .delivered (pl t) := by
    intro t
    simp [websocket_step, h t]
  have hsends : ∀ t, wsSendsAt agg none t = some (pl t) := by
    intro t
    rw [wsSendsAt,
      wsAlive_of_all_delivered agg none t (fun s _ => by rw [hstep s]; rfl),
      if_pos rfl, hstep t]
  have hstepk : ∀ t, t < k → websocket_step agg (some k) t = .delivered (pl t) := by
    intro t ht
    simp [websocket_step, h t, Nat.not_le.mpr ht]
  refine ⟨hsends, ?_, ?_, ?_, fun _ _ _ => rfl⟩
  · intro n
    induction n with
    | zero => rfl
    | succ v ih =>
      rw [snapshotsReceived, List.range_succ, List.filterMap_append,
        List.length_append]
      rw [snapshotsReceived] at ih
      rw [ih]
      simp [hsends v]
  · intro t ht
    rw [wsSendsAt,
      wsAlive_of_all_delivered agg (some k) t
        (fun s hs => by rw [hstepk s (lt_trans hs ht)]; rfl),
      if_pos rfl, hstepk t ht]
  · intro t ht
    have hterm : websocket_step agg (some k) t = .disconnectEnd := by
      simp [websocket_step, h t, ht]
    rw [wsSendsAt, hterm]
    simp

/-- C5 witness: with a concrete well-formed aggregator, client B receives
5 snapshots in 5 ticks while client A, disconnecting at tick 2, receives
tick 1 but nothing at tick 3. -/
theorem C5_subscriber_isolation_witness :
    snapshotsReceived (fun _ _ => RawDecision.mk (some "BUY") (some 1)
      (some 7) (some [])) none 5 = 5
    ∧ wsSendsAt (fun _ _ => RawDecision.mk (some "BUY") (some 1) (some 7)
        (some [])) (some 2) 1 =
        some (Payload.mk 0 7 "BUY" 1 [] "2025-11-30T00:00:00Z")
    ∧ wsSendsAt (fun _ _ => RawDecision.mk (some "BUY") (some 1) (some 7)
        (some [])) (some 2) 3 = none := by
  have h := C5_subscriber_isolation
    (fun _ _ => RawDecision.mk (some "BUY") (some 1) (some 7) (some []))
    (fun _ => Payload.mk 0 7 "BUY" 1 [] "2025-11-30T00:00:00Z")
    (fun _ => rfl) 2
  exact ⟨h.2.1 5, h.2.2.1 1 (by norm_num), h.2.2.2.1 3 (by norm_num)⟩

/-- C7 amended: when the aggregator returns a malformed decision (a
required field missing), the per-connection loop raises `KeyError`, caught
by the generic handler which logs and closes that connection: no payload
(and no hold default) is sent at that tick, and delivery to that
subscriber ends; the orchestrator process itself keeps running. -/
theorem C7_malformed_closes_connection (agg : MarketState → ℕ → RawDecision)
    (d : Option ℕ) (t : ℕ) (h : buildPayload (agg market_data t) = none) :
    websocket_step agg d t = .errorClosed
    ∧ (∀ u, t ≤ u → wsSendsAt agg d u = none) := by
  have hstep : websocket_step agg d t = .errorClosed := by
    simp [websocket_step, h]
  refine ⟨hstep, ?_⟩
  intro u hu
  rcases Nat.lt_or_ge t u with h' | h'
  · rw [wsSendsAt, wsAlive_false_after agg d t (by rw [hstep]; rfl) u h']
    simp
  · have : u = t := le_antisymm h' hu
    subst this
    rw [wsSendsAt, hstep]
    simp

/-- C7 witness: a decision missing `action` at tick 3 closes the
connection at tick 3 and nothing is delivered from then on. -/
theorem C7_malformed_closes_connection_witness :
    websocket_step (fun _ _ => RawDecision.mk none (some 1) (some 5)
      (some [])) none 3 = .errorClosed
    ∧ wsSendsAt (fun _ _ => RawDecision.mk none (some 1) (some 5)
        (some [])) none 7 = none := by
  have h := C7_malformed_closes_connection
    (fun _ _ => RawDecision.mk none (some 1) (some 5) (some [])) none 3 rfl
  exact ⟨h.1, h.2 7 (by norm_num)⟩

/-- C7 counterexample: the stream does not degrade to a hold default — a
single malformed decision at tick 0 closes the subscriber's connection,
and the subscriber receives zero snapshots over the next 5 ticks even
though every later decision is well-formed: delivery is terminated. -/
theorem C7_delivery_terminated :
    websocket_step aggMalformedOnce none 0 = .errorClosed
    ∧ buildPayload (aggMalformedOnce market_data 3) =
        some (Payload.mk 0 5 "hold" 1 [] "2025-11-30T00:00:00Z")
    ∧ snapshotsReceived aggMalformedOnce none 5 = 0 := by
  have h0 : websocket_step aggMalformedOnce none 0 = .errorClosed := rfl
  refine ⟨h0, rfl, ?_⟩
  have hdead := wsAlive_false_after aggMalformedOnce none 0 (by rw [h0]; rfl)
  have hnone : ∀ t, wsSendsAt aggMalformedOnce none t = none := by
    intro t
    cases t with
    | zero =>
      rw [wsSendsAt, h0]
      simp
    | succ v =>
      rw [wsSendsAt, hdead (v + 1) (Nat.succ_pos v)]
      simp
  have hmap : (List.range 5).filterMap (wsSendsAt aggMalformedOnce none) = [] :=
    List.filterMap_eq_nil_iff.mpr (fun a _ => hnone a)
  rw [snapshotsReceived, hmap]
  rfl

/-- C6 counterexample: after startup, shutdown and an arbitrarily long
grace period, the gas-watcher monitor loop is still running —
`shutdown_event` stops only the DataNexus listener; no `stop_all` over the
monitor loops exists, and open stream connections are untouched. -/
theorem C6_monitors_still_running :
    (afterGrace (shutdown_event (startup_event initialState))
      86400).monitorRunning "run_gas_watcher" = true
    ∧ (shutdown_event (startup_event initialState)).dataNexusRunning = false := by
  constructor
  · show (if (backgroundMonitors.map Prod.fst).contains "run_gas_watcher"
      then true else initialState.monitorRunning "run_gas_watcher") = true
    rw [if_pos]
    decide
  · rfl

/-- C6 amended: `shutdown_event` stops only the DataNexus listener; it is
idempotent on lifecycle state and acts on any (even partially-started)
state; but it signals neither the monitor loops nor the stream
connections, which remain exactly as they were, for any grace period. -/
theorem C6_shutdown_behavior (s : SystemState) (g : ℚ) (name : String) :
    (shutdown_event s).dataNexusRunning = false
    ∧ (shutdown_event s).monitorRunning = s.monitorRunning
    ∧ (shutdown_event s).openConnections = s.openConnections
    ∧ lifecycleOf (shutdown_event (shutdown_event s)) =
        lifecycleOf (shutdown_event s)
    ∧ afterGrace (shutdown_event s) g = shutdown_event s
    ∧ (afterGrace (shutdown_event s) g).monitorRunning name =
        s.monitorRunning name :=
  ⟨rfl, rfl, rfl, rfl, rfl, rfl⟩

end OmniTrade
